import Mathlib

/-!
# Route construction of `OpenDriveActor.cpp`, shallowly embedded

This file embeds the route-building core of
`Unreal/CarlaUE4/Plugins/Carla/Source/Carla/OpenDriveActor.cpp`:

* `SampleLane` — the waypoint sampler (lines 202–221): the start waypoint,
  the stepping loop `for (float Dist = RoadAccuracy; Dist < MaxDist; Dist += RoadAccuracy)`,
  and the final sample at `clamp(MaxDist - 0.1f, 0.f, MaxDist)`.
* `ProcessSuccessor` / `ProcessAnchor` / `BuildRoutesAux` — the traversal of
  `AOpenDriveActor::BuildRoutes` (lines 169–242): the `AlreadyVisited` vector,
  lazy spawning of one `ARoutePlanner` per anchor, `AddRoute(1.f, Positions)`
  and `RoutePlanners.Add(RoutePlanner)` per sampled successor.
* `BuildRoutes` — the parse-error early return (lines 160–164).
* `RemoveRoutes` — lines 245–256.
* `GenerateRoutesCommand` — the `bGenerateRoutes` branch of
  `PostEditChangeProperty` (lines 90–106), restricted to its route effects:
  `RemoveRoutes(); BuildRoutes();`.

Conventions of the embedding: distances are exact rationals `ℚ` (the source
uses `float`; none of the properties below depends on rounding), the road map
is a record of the query functions the source consumes
(`GenerateLaneEnd`, `GetSuccessors`, `GetRoadLength`, `GetNext`,
`IsIntersection`), and spawned `ARoutePlanner` actors are identified by their
spawn index, so that the member array `RoutePlanners` — which stores pointers
in the source — is a list of indices.  A polyline is kept as its list of
waypoints (the source additionally projects each waypoint to a world position
plus a constant height offset, a step none of the properties inspects).
The C++ stepping loop is embedded with explicit fuel
`⌈MaxDist / RoadAccuracy⌉ + 1`, which strictly exceeds the number of
iterations whenever `0 < RoadAccuracy` (the source loop does not terminate
otherwise), so the fuel never runs out on the guarded recursion.
-/

namespace Carla

/-- `carla::road::element::Waypoint`, reduced to the fields the route builder
reads: road id (`id_type`), signed lane id (`int`), and the arc-length
position along the lane. -/
structure Waypoint where
  roadId : ℕ
  laneId : ℤ
  dist : ℚ
  deriving DecidableEq, Inhabited

/-- The road-network query interface consumed by `BuildRoutes`:
`WaypointGen::GenerateLaneEnd` (one waypoint at the end of each lane),
`WaypointGen::GetSuccessors`, `map.GetRoad(id)->GetLength()`,
`WaypointGen::GetNext`, and `Waypoint::IsIntersection`. -/
structure RoadMap where
  GenerateLaneEnd : List Waypoint
  GetSuccessors : Waypoint → List Waypoint
  GetRoadLength : ℕ → ℚ
  GetNext : Waypoint → ℚ → List Waypoint
  IsIntersection : Waypoint → Bool

/-- `std::max(a, b)`. -/
def stdMax (a b : ℚ) : ℚ := if a < b then b else a

/-- `std::min(a, b)`. -/
def stdMin (a b : ℚ) : ℚ := if b < a then b else a

/-- `carla::geom::Math::clamp(v, lo, hi) = std::min(std::max(v, lo), hi)`. -/
def clamp (v lo hi : ℚ) : ℚ := stdMin (stdMax v lo) hi

/-- The distance of the final sample appended after the stepping loop
(line 218–219): `clamp(MaxDist - 0.1f, 0.f, MaxDist)`. -/
def finalSampleDist (MaxDist : ℚ) : ℚ := clamp (MaxDist - 1/10) 0 MaxDist

/-- The distances visited by the stepping loop
`for (float Dist = RoadAccuracy; Dist < MaxDist; Dist += RoadAccuracy)`
(line 207), with explicit fuel for the guarded recursion. -/
def sampleLoopDists : ℕ → ℚ → ℚ → ℚ → List ℚ
  | 0, _, _, _ => []
  | fuel + 1, Dist, RoadAccuracy, MaxDist =>
      if Dist < MaxDist then
        Dist :: sampleLoopDists fuel (Dist + RoadAccuracy) RoadAccuracy MaxDist
      else []

/-- Fuel that strictly exceeds the loop's iteration count whenever
`0 < RoadAccuracy` (the iterations are the `k ≥ 1` with
`k · RoadAccuracy < MaxDist`, of which there are fewer than
`⌈MaxDist / RoadAccuracy⌉ + 1`). -/
def loopFuel (RoadAccuracy MaxDist : ℚ) : ℕ :=
  if 0 < RoadAccuracy then (Int.ceil (MaxDist / RoadAccuracy)).toNat + 1 else 1

/-- The loop distances sampled for one successor lane: the loop runs over the
length of the successor's parent road, `MaxDist = map.GetRoad(RoadId)->GetLength()`
(line 202). -/
def loopDistsOf (m : RoadMap) (RoadAccuracy : ℚ) (Successor : Waypoint) : List ℚ :=
  sampleLoopDists (loopFuel RoadAccuracy (m.GetRoadLength Successor.roadId))
    RoadAccuracy RoadAccuracy (m.GetRoadLength Successor.roadId)

/-- The waypoint sampler (lines 204–220): the successor waypoint itself, one
waypoint `GetNext(Successor, Dist)[0]` per loop distance, and the final sample
`GetNext(Successor, clamp(MaxDist - 0.1f, 0.f, MaxDist))[0]`.  The `[0]`
accesses are embedded with `List.headI`; `SampleLaneChecked` below is the
variant that keeps the in-loop `check(NewWaypoint.size() == 1)` assertions and
the partiality of the unguarded final `[0]`. -/
def SampleLane (m : RoadMap) (RoadAccuracy : ℚ) (Successor : Waypoint) : List Waypoint :=
  Successor ::
    (loopDistsOf m RoadAccuracy Successor).map (fun Dist => (m.GetNext Successor Dist).headI)
    ++ [(m.GetNext Successor (finalSampleDist (m.GetRoadLength Successor.roadId))).headI]

/-- `ARoutePlanner`, reduced to the state `BuildRoutes` writes: the
`bIsIntersection` flag (line 229), the anchor whose transform is assigned by
`SetActorRotation`/`SetActorLocation` (lines 233–235), and the routes added by
`AddRoute(1.f, Positions)` (line 238). -/
structure ARoutePlanner where
  bIsIntersection : Bool
  anchor : Waypoint
  routes : List (ℚ × List Waypoint)
  deriving DecidableEq, Inhabited

/-- `ARoutePlanner::AddRoute(weight, Positions)` on the planner at spawn index
`i` of the world's planner list. -/
def AddRouteAt : List ARoutePlanner → ℕ → ℚ → List Waypoint → List ARoutePlanner
  | [], _, _, _ => []
  | p :: ps, 0, w, Positions => { p with routes := p.routes ++ [(w, Positions)] } :: ps
  | p :: ps, i + 1, w, Positions => p :: AddRouteAt ps i w Positions

/-- The state threaded through one `BuildRoutes` pass: the local
`AlreadyVisited` vector of `(RoadId, LaneId)` pairs (line 175), the spawned
`ARoutePlanner` actors (spawn index = position), and the member array
`RoutePlanners` of planner indices. -/
structure BuildState where
  AlreadyVisited : List (ℕ × ℤ)
  World : List ARoutePlanner
  RoutePlanners : List ℕ
  deriving DecidableEq

/-- The body of the inner successor loop (lines 186–240).  `s.2` is the local
`ARoutePlanner *RoutePlanner` pointer (spawn index, `none` = `nullptr`).
If the successor's identifier is already in `AlreadyVisited` the successor is
skipped; otherwise it is marked visited and sampled, the planner is spawned on
first need (with `bIsIntersection` computed by `any_of` over the whole
`Successors` list, line 229), and `AddRoute` and `RoutePlanners.Add` run once
per sampled successor (lines 238–239). -/
def ProcessSuccessor (m : RoadMap) (RoadAccuracy : ℚ) (EndLaneWaypoint : Waypoint)
    (Successors : List Waypoint) (s : BuildState × Option ℕ) (Successor : Waypoint) :
    BuildState × Option ℕ :=
  if (Successor.roadId, Successor.laneId) ∈ s.1.AlreadyVisited then s
  else
    match s.2 with
    | none =>
        (⟨s.1.AlreadyVisited ++ [(Successor.roadId, Successor.laneId)],
          s.1.World ++
            [{ bIsIntersection := Successors.any m.IsIntersection
               anchor := EndLaneWaypoint
               routes := [(1, SampleLane m RoadAccuracy Successor)] }],
          s.1.RoutePlanners ++ [s.1.World.length]⟩,
         some s.1.World.length)
    | some pid =>
        (⟨s.1.AlreadyVisited ++ [(Successor.roadId, Successor.laneId)],
          AddRouteAt s.1.World pid 1 (SampleLane m RoadAccuracy Successor),
          s.1.RoutePlanners ++ [pid]⟩,
         some pid)

/-- The body of the outer anchor loop (lines 177–242): fetch the successors of
the anchor, start with a null local planner pointer, and fold the successor
loop over them. -/
def ProcessAnchor (m : RoadMap) (RoadAccuracy : ℚ) (st : BuildState)
    (EndLaneWaypoint : Waypoint) : BuildState :=
  ((m.GetSuccessors EndLaneWaypoint).foldl
    (ProcessSuccessor m RoadAccuracy EndLaneWaypoint (m.GetSuccessors EndLaneWaypoint))
    (st, none)).1

/-- The full traversal of `BuildRoutes` after a successful map load, starting
from a given state. -/
def BuildRoutesAux (m : RoadMap) (RoadAccuracy : ℚ) (st : BuildState) : BuildState :=
  m.GenerateLaneEnd.foldl (ProcessAnchor m RoadAccuracy) st

/-- The actor state that persists across calls: the spawned planners and the
member `TArray<ARoutePlanner *> RoutePlanners`.  The `AlreadyVisited` vector
is deliberately absent: it is a local of `BuildRoutes` (line 175), created
empty at the start of each pass and discarded with the pass. -/
structure ActorState where
  World : List ARoutePlanner
  RoutePlanners : List ℕ
  deriving DecidableEq

/-- The empty actor state. -/
def emptyActor : ActorState := ⟨[], []⟩

/-- One `BuildRoutes` traversal over a successfully loaded map: the visited
set starts empty, the planner collection starts from the current actor
state. -/
def BuildRoutesOnMap (m : RoadMap) (RoadAccuracy : ℚ) (st : ActorState) : ActorState :=
  ⟨(BuildRoutesAux m RoadAccuracy ⟨[], st.World, st.RoutePlanners⟩).World,
   (BuildRoutesAux m RoadAccuracy ⟨[], st.World, st.RoutePlanners⟩).RoutePlanners⟩

/-- `AOpenDriveActor::BuildRoutes` including the map-load outcome: on a parse
error the function logs and returns with no state change (lines 160–164),
otherwise it runs the traversal. -/
def BuildRoutes (load : Except String RoadMap) (RoadAccuracy : ℚ) (st : ActorState) :
    ActorState :=
  match load with
  | Except.error _ => st
  | Except.ok m => BuildRoutesOnMap m RoadAccuracy st

/-- `AOpenDriveActor::RemoveRoutes` (lines 245–256): destroy every planner
referenced by the member array and empty the array. -/
def RemoveRoutes (_st : ActorState) : ActorState := ⟨[], []⟩

/-- The route effects of the `bGenerateRoutes` command path of
`PostEditChangeProperty` (lines 90–106): `RemoveRoutes()` runs before
`BuildRoutes()` ("Avoid OpenDrive overlapping").  The spawner and debug
side effects do not touch the route collection and are not modelled. -/
def GenerateRoutesCommand (load : Except String RoadMap) (RoadAccuracy : ℚ)
    (st : ActorState) : ActorState :=
  BuildRoutes load RoadAccuracy (RemoveRoutes st)

/-- The in-loop step of the sampler with its source assertions kept
(lines 209–214): `check(NewWaypoint.size() == 1)` before each
`NewWaypoint[0]`; an assertion failure is fatal, embedded as `none`. -/
def sampleLoopChecked (m : RoadMap) (Successor : Waypoint) :
    List ℚ → Option (List Waypoint)
  | [] => some []
  | Dist :: rest =>
      if (m.GetNext Successor Dist).length = 1 then
        match sampleLoopChecked m Successor rest with
        | none => none
        | some tail => some ((m.GetNext Successor Dist).headI :: tail)
      else none

/-- The sampler with partiality made explicit: the loop keeps its
`check(size == 1)` assertions, the final sample takes `[0]` of
`GetNext(Successor, clamp(MaxDist - 0.1f, 0.f, MaxDist))` with no emptiness
check (lines 218–219) — embedded as `none` on an empty result, since `[0]` on
an empty vector is undefined — and the trailing `check(Waypoints.size() >= 2)`
(line 221) is kept as a guard. -/
def SampleLaneChecked (m : RoadMap) (RoadAccuracy : ℚ) (Successor : Waypoint) :
    Option (List Waypoint) :=
  match sampleLoopChecked m Successor (loopDistsOf m RoadAccuracy Successor) with
  | none => none
  | some loopPts =>
      match m.GetNext Successor (finalSampleDist (m.GetRoadLength Successor.roadId)) with
      | [] => none
      | w :: _ =>
          if 2 ≤ (Successor :: loopPts ++ [w]).length then
            some (Successor :: loopPts ++ [w])
          else none

/-! ## Concrete road networks used as test inputs -/

/-- Scenario B of the spec: lane A lives on road 0 (length 30) and its end
anchor has the single successor lane B on road 1 (length 20); lane B's end
anchor has no successors.  `GetNext` returns the single waypoint at the
requested distance; nothing is inside a junction. -/
def mapB : RoadMap where
  GenerateLaneEnd := [⟨0, 1, 30⟩, ⟨1, 1, 20⟩]
  GetSuccessors := fun w => if w.roadId = 0 then [⟨1, 1, 0⟩] else []
  GetRoadLength := fun r => if r = 0 then 30 else 20
  GetNext := fun w d => [⟨w.roadId, w.laneId, d⟩]
  IsIntersection := fun _ => false

/-- A network with a single anchor (on road 0) that has two distinct
unvisited successor lanes, on roads 1 and 2 (each of length 5). -/
def mapDup : RoadMap where
  GenerateLaneEnd := [⟨0, 1, 5⟩]
  GetSuccessors := fun w => if w.roadId = 0 then [⟨1, 1, 0⟩, ⟨2, 1, 0⟩] else []
  GetRoadLength := fun _ => 5
  GetNext := fun w d => [⟨w.roadId, w.laneId, d⟩]
  IsIntersection := fun w => w.roadId == 2

/-- A network where two anchors (roads 0 and 1) share the successor lane S on
road 2, which lies inside a junction; the second anchor additionally has the
non-junction successor lane T on road 3.  All roads have length 5. -/
def mapShared : RoadMap where
  GenerateLaneEnd := [⟨0, 1, 10⟩, ⟨1, 1, 10⟩]
  GetSuccessors := fun w =>
    if w.roadId = 0 then [⟨2, 1, 0⟩]
    else if w.roadId = 1 then [⟨2, 1, 0⟩, ⟨3, 1, 0⟩]
    else []
  GetRoadLength := fun _ => 5
  GetNext := fun w d => [⟨w.roadId, w.laneId, d⟩]
  IsIntersection := fun w => w.roadId == 2

/-- The planner that `BuildRoutes` on `mapShared` spawns for the first anchor:
it claims lane S, and its flag is true since S is a junction lane. -/
def sharedPlanner0 : ARoutePlanner where
  bIsIntersection := true
  anchor := ⟨0, 1, 10⟩
  routes := [(1, [⟨2, 1, 0⟩, ⟨2, 1, 49/10⟩])]

/-- A prior actor state with one already-built route, used to exercise the
failure paths. -/
def priorState : ActorState where
  World := [⟨false, ⟨0, 1, 0⟩, [(1, [⟨0, 1, 0⟩, ⟨0, 1, 1⟩])]⟩]
  RoutePlanners := [0]

/-! ## Helper lemmas -/

/-- A predicate preserved by every step of a left fold holds of the result. -/
theorem foldl_invariant {α β : Type} (P : β → Prop) (f : β → α → β)
    (step : ∀ b a, P b → P (f b a)) :
    ∀ (l : List α) (b : β), P b → P (l.foldl f b)
  | [], _, hb => hb
  | a :: t, b, hb => foldl_invariant P f step t (f b a) (step b a hb)

/-- If the first test of the stepping loop fails, the loop yields no
distances, whatever the fuel. -/
theorem sampleLoopDists_nil (fuel : ℕ) (Dist RoadAccuracy MaxDist : ℚ)
    (h : ¬ Dist < MaxDist) :
    sampleLoopDists fuel Dist RoadAccuracy MaxDist = [] := by
  cases fuel <;> simp [sampleLoopDists, h]

/-- One successor step grows the member array and the visited vector in
lockstep: both gain one entry when the successor is sampled, neither
otherwise. -/
theorem ProcessSuccessor_count (m : RoadMap) (RoadAccuracy : ℚ)
    (EndLaneWaypoint : Waypoint) (Successors : List Waypoint)
    (s : BuildState × Option ℕ) (Successor : Waypoint)
    (h : s.1.RoutePlanners.length = s.1.AlreadyVisited.length) :
    (ProcessSuccessor m RoadAccuracy EndLaneWaypoint Successors s Successor).1.RoutePlanners.length
      = (ProcessSuccessor m RoadAccuracy EndLaneWaypoint Successors s Successor).1.AlreadyVisited.length := by
  unfold ProcessSuccessor
  split
  · exact h
  · split <;> simp [h]

/-- One anchor step preserves the lockstep of member-array and visited-vector
sizes. -/
theorem ProcessAnchor_count (m : RoadMap) (RoadAccuracy : ℚ) (st : BuildState)
    (EndLaneWaypoint : Waypoint)
    (h : st.RoutePlanners.length = st.AlreadyVisited.length) :
    (ProcessAnchor m RoadAccuracy st EndLaneWaypoint).RoutePlanners.length
      = (ProcessAnchor m RoadAccuracy st EndLaneWaypoint).AlreadyVisited.length := by
  unfold ProcessAnchor
  exact foldl_invariant
    (fun s : BuildState × Option ℕ => s.1.RoutePlanners.length = s.1.AlreadyVisited.length)
    (ProcessSuccessor m RoadAccuracy EndLaneWaypoint (m.GetSuccessors EndLaneWaypoint))
    (fun b a hb => ProcessSuccessor_count m RoadAccuracy EndLaneWaypoint
      (m.GetSuccessors EndLaneWaypoint) b a hb)
    (m.GetSuccessors EndLaneWaypoint) (st, none) h

/-- One successor step keeps the visited vector duplicate-free: an identifier
is appended only after the membership test ruled it out. -/
theorem ProcessSuccessor_nodup (m : RoadMap) (RoadAccuracy : ℚ)
    (EndLaneWaypoint : Waypoint) (Successors : List Waypoint)
    (s : BuildState × Option ℕ) (Successor : Waypoint)
    (h : s.1.AlreadyVisited.Nodup) :
    (ProcessSuccessor m RoadAccuracy EndLaneWaypoint Successors s Successor).1.AlreadyVisited.Nodup := by
  unfold ProcessSuccessor
  split
  · exact h
  · next hmem =>
      split <;> simp [List.nodup_append, h, hmem]

/-- One anchor step keeps the visited vector duplicate-free. -/
theorem ProcessAnchor_nodup (m : RoadMap) (RoadAccuracy : ℚ) (st : BuildState)
    (EndLaneWaypoint : Waypoint) (h : st.AlreadyVisited.Nodup) :
    (ProcessAnchor m RoadAccuracy st EndLaneWaypoint).AlreadyVisited.Nodup := by
  unfold ProcessAnchor
  exact foldl_invariant
    (fun s : BuildState × Option ℕ => s.1.AlreadyVisited.Nodup)
    (ProcessSuccessor m RoadAccuracy EndLaneWaypoint (m.GetSuccessors EndLaneWaypoint))
    (fun b a hb => ProcessSuccessor_nodup m RoadAccuracy EndLaneWaypoint
      (m.GetSuccessors EndLaneWaypoint) b a hb)
    (m.GetSuccessors EndLaneWaypoint) (st, none) h

/-- `AddRouteAt` only appends to a planner's route list: every planner of the
result has the flag and anchor of some planner of the input. -/
theorem AddRouteAt_mem_shape :
    ∀ (l : List ARoutePlanner) (i : ℕ) (w : ℚ) (Positions : List Waypoint)
      (p : ARoutePlanner), p ∈ AddRouteAt l i w Positions →
      ∃ q ∈ l, p.bIsIntersection = q.bIsIntersection ∧ p.anchor = q.anchor := by
  intro l
  induction l with
  | nil => intro i w Positions p hp; simp [AddRouteAt] at hp
  | cons q qs ih =>
      intro i w Positions p hp
      cases i with
      | zero =>
          simp only [AddRouteAt, List.mem_cons] at hp
          rcases hp with h1 | h1
          · exact ⟨q, List.mem_cons_self q qs, by subst h1; exact ⟨rfl, rfl⟩⟩
          · exact ⟨p, List.mem_cons_of_mem q h1, rfl, rfl⟩
      | succ n =>
          simp only [AddRouteAt, List.mem_cons] at hp
          rcases hp with h1 | h1
          · exact ⟨q, List.mem_cons_self q qs, by subst h1; exact ⟨rfl, rfl⟩⟩
          · rcases ih n w Positions p h1 with ⟨r, hr, h2, h3⟩
            exact ⟨r, List.mem_cons_of_mem q hr, h2, h3⟩

/-- One successor step preserves the planner-flag invariant: every spawned
planner's flag is `any_of` of `IsIntersection` over the full successor list of
its own anchor. -/
theorem ProcessSuccessor_flag (m : RoadMap) (RoadAccuracy : ℚ)
    (EndLaneWaypoint : Waypoint) (s : BuildState × Option ℕ) (Successor : Waypoint)
    (h : ∀ p ∈ s.1.World,
      p.bIsIntersection = (m.GetSuccessors p.anchor).any m.IsIntersection) :
    ∀ p ∈ (ProcessSuccessor m RoadAccuracy EndLaneWaypoint
        (m.GetSuccessors EndLaneWaypoint) s Successor).1.World,
      p.bIsIntersection = (m.GetSuccessors p.anchor).any m.IsIntersection := by
  unfold ProcessSuccessor
  split
  · exact h
  · split
    · intro p hp
      rcases List.mem_append.mp hp with h1 | h1
      · exact h p h1
      · simp only [List.mem_singleton] at h1
        subst h1
        rfl
    · intro p hp
      rcases AddRouteAt_mem_shape _ _ _ _ p hp with ⟨q, hq, h2, h3⟩
      rw [h2, h3]
      exact h q hq

/-- One anchor step preserves the planner-flag invariant. -/
theorem ProcessAnchor_flag (m : RoadMap) (RoadAccuracy : ℚ) (st : BuildState)
    (EndLaneWaypoint : Waypoint)
    (h : ∀ p ∈ st.World,
      p.bIsIntersection = (m.GetSuccessors p.anchor).any m.IsIntersection) :
    ∀ p ∈ (ProcessAnchor m RoadAccuracy st EndLaneWaypoint).World,
      p.bIsIntersection = (m.GetSuccessors p.anchor).any m.IsIntersection := by
  unfold ProcessAnchor
  exact foldl_invariant
    (fun s : BuildState × Option ℕ => ∀ p ∈ s.1.World,
      p.bIsIntersection = (m.GetSuccessors p.anchor).any m.IsIntersection)
    (ProcessSuccessor m RoadAccuracy EndLaneWaypoint (m.GetSuccessors EndLaneWaypoint))
    (fun b a hb => ProcessSuccessor_flag m RoadAccuracy EndLaneWaypoint b a hb)
    (m.GetSuccessors EndLaneWaypoint) (st, none) h

/-- The last element of a nonempty list extended by a singleton. -/
theorem getLast?_cons_append_singleton (a x : Waypoint) (l : List Waypoint) :
    (a :: l ++ [x]).getLast? = some x := by
  rw [List.getLast?_append_cons]
  rfl

/-! ## Claims -/

/-- C1 (counterexample): the claim says no RouteGroup appears in the
collection more than once, even when an anchor contributes several unvisited
successor lanes.  On `mapDup`, whose single anchor contributes two unvisited
successor lanes, `RoutePlanners.Add(RoutePlanner)` (line 239) runs once per
sampled successor, so the collection holds the same planner (spawn index 0)
twice. -/
theorem C1_counterexample :
    (BuildRoutesOnMap mapDup 10 emptyActor).RoutePlanners = [0, 0] ∧
      ¬ (BuildRoutesOnMap mapDup 10 emptyActor).RoutePlanners.Nodup := by
  decide

/-- C1 (amended): after `BuildRoutes` processes all successors of all anchors,
the collection holds one entry per sampled (unvisited) successor lane — its
size equals the size of the visited set — so a RouteGroup appears once per
unvisited successor lane its anchor contributed, possibly several times. -/
theorem C1_amended (m : RoadMap) (RoadAccuracy : ℚ) :
    (BuildRoutesAux m RoadAccuracy ⟨[], [], []⟩).RoutePlanners.length =
      (BuildRoutesAux m RoadAccuracy ⟨[], [], []⟩).AlreadyVisited.length := by
  unfold BuildRoutesAux
  exact foldl_invariant
    (fun st : BuildState => st.RoutePlanners.length = st.AlreadyVisited.length)
    (ProcessAnchor m RoadAccuracy)
    (fun b a hb => ProcessAnchor_count m RoadAccuracy b a hb)
    m.GenerateLaneEnd ⟨[], [], []⟩ rfl

/-- C2 (counterexample): the claim says a RouteGroup's intersection flag is
true iff one of the successor lanes that contributed a polyline to it is in an
intersection.  On `mapShared`, the second planner's only contributing lane
(road 3) is not in an intersection — lane S on road 2 was claimed by the first
anchor — yet its flag is true, because line 229 computes `any_of` over the
anchor's whole successor list, including visited successors that contributed
nothing. -/
theorem C2_counterexample :
    ((BuildRoutesOnMap mapShared 10 emptyActor).World.getD 1 default).bIsIntersection
        = true ∧
      ((BuildRoutesOnMap mapShared 10 emptyActor).World.getD 1 default).routes.all
        (fun r => r.2.all (fun w => !(mapShared.IsIntersection w))) = true := by
  decide

/-- C2 (amended): a RouteGroup's intersection flag is true iff at least one
successor lane of its anchor — contributing or not, including successors whose
polylines were claimed by an earlier anchor — reports being inside an
intersection. -/
theorem C2_amended (m : RoadMap) (RoadAccuracy : ℚ) (p : ARoutePlanner)
    (hp : p ∈ (BuildRoutesOnMap m RoadAccuracy emptyActor).World) :
    p.bIsIntersection = (m.GetSuccessors p.anchor).any m.IsIntersection := by
  have key : ∀ q ∈ (BuildRoutesAux m RoadAccuracy ⟨[], [], []⟩).World,
      q.bIsIntersection = (m.GetSuccessors q.anchor).any m.IsIntersection := by
    unfold BuildRoutesAux
    exact foldl_invariant
      (fun st : BuildState => ∀ q ∈ st.World,
        q.bIsIntersection = (m.GetSuccessors q.anchor).any m.IsIntersection)
      (ProcessAnchor m RoadAccuracy)
      (fun b a hb => ProcessAnchor_flag m RoadAccuracy b a hb)
      m.GenerateLaneEnd ⟨[], [], []⟩ (by simp)
  exact key p hp

unseal Rat.mul Rat.add Rat.sub Rat.inv in
/-- C2 (witness): the first planner built on `mapShared` satisfies the
amended flag equation. -/
theorem C2_witness :
    sharedPlanner0 ∈ (BuildRoutesOnMap mapShared 10 emptyActor).World ∧
      sharedPlanner0.bIsIntersection =
        (mapShared.GetSuccessors sharedPlanner0.anchor).any mapShared.IsIntersection :=
  ⟨by decide, C2_amended mapShared 10 sharedPlanner0 (by decide)⟩

/-- C3: within a single `BuildRoutes` pass no `(roadId, laneId)` pair is
sampled more than once: the visited vector — which the pass creates empty,
extends exactly when a successor is sampled, and discards with the pass (it is
a local of `BuildRoutes`, absent from `ActorState`) — never acquires a
duplicate. -/
theorem C3_no_duplicate_sampling (m : RoadMap) (RoadAccuracy : ℚ) :
    (BuildRoutesAux m RoadAccuracy ⟨[], [], []⟩).AlreadyVisited.Nodup := by
  unfold BuildRoutesAux
  exact foldl_invariant
    (fun st : BuildState => st.AlreadyVisited.Nodup)
    (ProcessAnchor m RoadAccuracy)
    (fun b a hb => ProcessAnchor_nodup m RoadAccuracy b a hb)
    m.GenerateLaneEnd ⟨[], [], []⟩ (by simp)

/-- C4: every sampled polyline has at least 2 points — the entry waypoint plus
the final boundary sample — for every positive lane length and step size, so
the assertion `check(Waypoints.size() >= 2)` (line 221) never fires. -/
theorem C4_min_polyline_length (m : RoadMap) (RoadAccuracy : ℚ)
    (Successor : Waypoint) (hacc : 0 < RoadAccuracy)
    (hlen : 0 < m.GetRoadLength Successor.roadId) :
    2 ≤ (SampleLane m RoadAccuracy Successor).length := by
  unfold SampleLane
  simp

/-- C4 (witness): instantiated on lane B of `mapB` with step 10. -/
theorem C4_witness :
    (0 : ℚ) < 10 ∧ (0 : ℚ) < mapB.GetRoadLength (⟨1, 1, 0⟩ : Waypoint).roadId ∧
      2 ≤ (SampleLane mapB 10 ⟨1, 1, 0⟩).length :=
  ⟨by decide, by decide,
    C4_min_polyline_length mapB 10 ⟨1, 1, 0⟩ (by decide) (by decide)⟩

unseal Rat.mul Rat.add Rat.sub Rat.inv in
/-- C5 (counterexample): the claim says the final sample distance is
`min(MaxDist - 0.1, MaxDist)`, yielding a negative distance for lanes shorter
than 0.1.  The source computes `clamp(MaxDist - 0.1f, 0.f, MaxDist)`
(lines 218–219): at `MaxDist = 0.05` the claimed formula gives `-0.05` while
the code clamps to `0`. -/
theorem C5_counterexample :
    finalSampleDist (1/20) = 0 ∧
      min ((1/20 : ℚ) - 1/10) (1/20) = -(1/20) ∧
      finalSampleDist (1/20) ≠ min ((1/20 : ℚ) - 1/10) (1/20) := by
  have h1 : finalSampleDist (1/20) = 0 := by decide
  have h2 : min ((1/20 : ℚ) - 1/10) (1/20) = -(1/20) := by
    rw [min_eq_left (by norm_num)]
    norm_num
  exact ⟨h1, h2, by rw [h1, h2]; norm_num⟩

/-- C5 (amended): the final sample appended after the stepping loop is
computed at `clamp(MaxDist - 0.1, 0, MaxDist)`, which for every `MaxDist ≥ 0`
equals `max 0 (MaxDist - 0.1)` — i.e. `MaxDist - 0.1` when `MaxDist ≥ 0.1`,
and `0`, never negative, for shorter lanes. -/
theorem C5_amended (m : RoadMap) (RoadAccuracy : ℚ) (Successor : Waypoint)
    (h : 0 ≤ m.GetRoadLength Successor.roadId) :
    finalSampleDist (m.GetRoadLength Successor.roadId)
        = max 0 (m.GetRoadLength Successor.roadId - 1/10) ∧
      (SampleLane m RoadAccuracy Successor).getLast?
        = some ((m.GetNext Successor
            (finalSampleDist (m.GetRoadLength Successor.roadId))).headI) := by
  constructor
  · unfold finalSampleDist clamp stdMin stdMax
    rcases lt_or_le (m.GetRoadLength Successor.roadId - 1/10) 0 with h1 | h1
    · rw [if_pos h1, if_neg (not_lt.mpr h), max_eq_left h1.le]
    · rw [if_neg (not_lt.mpr h1), if_neg (by linarith), max_eq_right h1]
  · unfold SampleLane
    exact getLast?_cons_append_singleton _ _ _

/-- C5 (witness): instantiated on lane B of `mapB` (length 20 ≥ 0). -/
theorem C5_witness :
    (0 : ℚ) ≤ mapB.GetRoadLength (⟨1, 1, 0⟩ : Waypoint).roadId ∧
      (finalSampleDist (mapB.GetRoadLength (⟨1, 1, 0⟩ : Waypoint).roadId)
          = max 0 (mapB.GetRoadLength (⟨1, 1, 0⟩ : Waypoint).roadId - 1/10) ∧
        (SampleLane mapB 10 (⟨1, 1, 0⟩ : Waypoint)).getLast?
          = some ((mapB.GetNext ⟨1, 1, 0⟩
              (finalSampleDist
                (mapB.GetRoadLength (⟨1, 1, 0⟩ : Waypoint).roadId))).headI)) :=
  ⟨by decide, C5_amended mapB 10 ⟨1, 1, 0⟩ (by decide)⟩

/-- C6: when `RoadAccuracy ≥ MaxDist` the stepping loop body executes zero
times and the polyline is exactly the start waypoint followed by the final
boundary sample — 2 points. -/
theorem C6_short_lane (m : RoadMap) (RoadAccuracy : ℚ) (Successor : Waypoint)
    (h : m.GetRoadLength Successor.roadId ≤ RoadAccuracy) :
    loopDistsOf m RoadAccuracy Successor = [] ∧
      SampleLane m RoadAccuracy Successor =
        [Successor,
          (m.GetNext Successor
            (finalSampleDist (m.GetRoadLength Successor.roadId))).headI] := by
  have hnil : loopDistsOf m RoadAccuracy Successor = [] :=
    sampleLoopDists_nil _ _ _ _ (not_lt.mpr h)
  refine ⟨hnil, ?_⟩
  unfold SampleLane
  rw [hnil]
  rfl

/-- C6 (witness): on `mapDup`, road 1 has length 5 ≤ step 10. -/
theorem C6_witness :
    mapDup.GetRoadLength (⟨1, 1, 0⟩ : Waypoint).roadId ≤ 10 ∧
      (loopDistsOf mapDup 10 ⟨1, 1, 0⟩ = [] ∧
        SampleLane mapDup 10 ⟨1, 1, 0⟩ =
          [⟨1, 1, 0⟩,
            (mapDup.GetNext ⟨1, 1, 0⟩
              (finalSampleDist
                (mapDup.GetRoadLength (⟨1, 1, 0⟩ : Waypoint).roadId))).headI]) :=
  ⟨by decide, C6_short_lane mapDup 10 ⟨1, 1, 0⟩ (by decide)⟩

unseal Rat.mul Rat.add Rat.sub Rat.inv in
/-- C7: scenario B — lane A (length 30) with sole successor lane B (length
20), `RoadAccuracy = 10` — yields exactly one RouteGroup with exactly one
polyline, whose points sit at distances 0, 10 and 19.9. -/
theorem C7_scenarioB :
    (BuildRoutesOnMap mapB 10 emptyActor).RoutePlanners = [0] ∧
      (BuildRoutesOnMap mapB 10 emptyActor).World.map
        (fun p => p.routes.map (fun r => r.2.map Waypoint.dist))
        = [[[0, 10, 199/10]]] := by
  decide

unseal Rat.mul Rat.add Rat.sub Rat.inv in
/-- C8 (counterexample): on a parse error, `BuildRoutes` itself leaves the
collection untouched — but the claim also covers the rebuild command path,
where `RemoveRoutes()` runs before `BuildRoutes()` (line 94), so the failed
rebuild leaves an empty collection, not the previously built routes. -/
theorem C8_counterexample :
    BuildRoutes (Except.error "parse error") 1 priorState = priorState ∧
      priorState.RoutePlanners = [0] ∧
      (GenerateRoutesCommand (Except.error "parse error") 1 priorState).RoutePlanners
        = [] ∧
      GenerateRoutesCommand (Except.error "parse error") 1 priorState ≠ priorState := by
  decide

/-- C8 (amended): a parse error aborts `BuildRoutes` with no mutation of the
route collection when `BuildRoutes` is called on its own; through the rebuild
command path, however, the collection has already been cleared before the
build, so a failed rebuild leaves an empty collection rather than the
last-known-good routes. -/
theorem C8_amended (e : String) (RoadAccuracy : ℚ) (st : ActorState) :
    BuildRoutes (Except.error e) RoadAccuracy st = st ∧
      GenerateRoutesCommand (Except.error e) RoadAccuracy st = emptyActor :=
  ⟨rfl, rfl⟩

/-- C9: `RemoveRoutes` empties the collection, is safe on an already-empty
collection, and is idempotent: clearing twice leaves the same state as
clearing once. -/
theorem C9_clear_idempotent (st : ActorState) :
    (RemoveRoutes st).World = [] ∧ (RemoveRoutes st).RoutePlanners = [] ∧
      RemoveRoutes (RemoveRoutes st) = RemoveRoutes st :=
  ⟨rfl, rfl, rfl⟩

/-- C10: the final boundary sample takes element `[0]` of the `GetNext` result
with no emptiness check (lines 218–219), unlike the in-loop samples, which
assert exactly one element; assuming the in-loop checks pass, the checked
sampler is well-defined exactly when `GetNext` at the clamped distance
`clamp(MaxDist - 0.1, 0, MaxDist)` returns at least one waypoint. -/
theorem C10_final_sample_unchecked (m : RoadMap) (RoadAccuracy : ℚ)
    (Successor : Waypoint)
    (h : (sampleLoopChecked m Successor (loopDistsOf m RoadAccuracy Successor)).isSome
      = true) :
    (SampleLaneChecked m RoadAccuracy Successor).isSome = true ↔
      m.GetNext Successor (finalSampleDist (m.GetRoadLength Successor.roadId)) ≠ [] := by
  rcases Option.isSome_iff_exists.mp h with ⟨loopPts, hl⟩
  unfold SampleLaneChecked
  rw [hl]
  cases hg : m.GetNext Successor (finalSampleDist (m.GetRoadLength Successor.roadId)) with
  | nil => simp
  | cons w ws =>
      have hlen : 2 ≤ (Successor :: loopPts ++ [w]).length := by simp
      simp [hlen]

unseal Rat.mul Rat.add Rat.sub Rat.inv in
/-- C10 (witness): on lane B of `mapB` every `GetNext` query is a singleton,
so the loop checks pass, the checked sampler succeeds, and the final query is
nonempty. -/
theorem C10_witness :
    (sampleLoopChecked mapB ⟨1, 1, 0⟩ (loopDistsOf mapB 10 ⟨1, 1, 0⟩)).isSome = true ∧
      ((SampleLaneChecked mapB 10 ⟨1, 1, 0⟩).isSome = true ↔
        mapB.GetNext ⟨1, 1, 0⟩
            (finalSampleDist (mapB.GetRoadLength (⟨1, 1, 0⟩ : Waypoint).roadId)) ≠ []) :=
  ⟨by decide, C10_final_sample_unchecked mapB 10 ⟨1, 1, 0⟩ (by decide)⟩

end Carla
